import Mathlib

/-!
Shallow embedding of the buffer abstraction layer (the `buffers` Rust crate).

Buffers are logical arrays of slots, each either empty or filled.  Slot
contents are modelled as `Option`-valued maps (`none` = empty/uninitialized,
`some v` = filled with `v`).  Machine pointers are abstracted away: a slot is
identified by its index.  Fallible operations return `Except ResizeError`.
Allocation is modelled as always succeeding (out-of-memory is an environment
condition, not program logic); `debug_assert` panics at construction are
modelled with `Except String`.
-/

namespace Buffers

/-- Resize failure taxonomy, from `1_interface/2_resize_error.rs`
(`enum ResizeError`). -/
inductive ResizeError where
  | outOfMemory
  | theoreticalLimitSurpassed
  | unsupportedOperation
  | undistinguishableError
deriving DecidableEq, Repr

/-- Inline fixed-size buffer, from `2_base_buffers/1_inline.rs`
(`struct InlineBuffer<T, const SIZE: usize> { array: [MaybeUninit<T>; SIZE] }`).
The `MaybeUninit` array is modelled as a map from index to optional content;
only indices below `N` are meaningful. -/
structure InlineBuffer (T : Type) (N : Nat) where
  array : Nat → Option T

/-- Model of `InlineBuffer::new` (all slots uninitialized).  `Default::default`
forwards to `new`. -/
def InlineBuffer.new (T : Type) (N : Nat) : InlineBuffer T N :=
  ⟨fun _ => none⟩

/-- Model of `InlineBuffer::capacity`: always the const generic `SIZE`. -/
def InlineBuffer.capacity {T : Type} {N : Nat} (_ : InlineBuffer T N) : Nat :=
  N

/-- Model of `InlineBuffer::read_value`: returns the slot content and empties
the slot.  The returned `Option` is `none` exactly when the precondition
(slot filled) was violated. -/
def InlineBuffer.read_value {T : Type} {N : Nat} (b : InlineBuffer T N)
    (index : Nat) : Option T × InlineBuffer T N :=
  (b.array index, ⟨fun j => if j = index then none else b.array j⟩)

/-- Model of `InlineBuffer::write_value`: stores `value`, filling the slot. -/
def InlineBuffer.write_value {T : Type} {N : Nat} (b : InlineBuffer T N)
    (index : Nat) (value : T) : InlineBuffer T N :=
  ⟨fun j => if j = index then some value else b.array j⟩

/-- Model of `InlineBuffer::manually_drop`: destructs in place, emptying the
slot. -/
def InlineBuffer.manually_drop {T : Type} {N : Nat} (b : InlineBuffer T N)
    (index : Nat) : InlineBuffer T N :=
  ⟨fun j => if j = index then none else b.array j⟩

/-- Model of `InlineBuffer::try_grow`: always
`Err(ResizeError::UnsupportedOperation)`. -/
def InlineBuffer.try_grow {T : Type} {N : Nat} (_ : InlineBuffer T N)
    (_target : Nat) : Except ResizeError (InlineBuffer T N) :=
  .error .unsupportedOperation

/-- Model of `InlineBuffer::try_shrink`: always
`Err(ResizeError::UnsupportedOperation)`. -/
def InlineBuffer.try_shrink {T : Type} {N : Nat} (_ : InlineBuffer T N)
    (_target : Nat) : Except ResizeError (InlineBuffer T N) :=
  .error .unsupportedOperation

/-- Heap-allocated buffer, from `2_base_buffers/2_heap.rs`
(`struct HeapBuffer<T> { buffer_start: NonNull<T>, cap: usize, .. }`).
The backing allocation is modelled by its logical contents: `cap` plus a map
from index to optional content (indices at or beyond `cap` are garbage,
modelled as `none`). -/
structure HeapBuffer (T : Type) where
  cap : Nat
  data : Nat → Option T

/-- Model of `HeapBuffer::new`: zero capacity, dangling (empty) storage. -/
def HeapBuffer.new (T : Type) : HeapBuffer T :=
  ⟨0, fun _ => none⟩

/-- Model of `HeapBuffer::capacity`. -/
def HeapBuffer.capacity {T : Type} (b : HeapBuffer T) : Nat :=
  b.cap

/-- Model of `HeapBuffer::read_value` (`ptr.read()` at index): returns the
content and empties the slot. -/
def HeapBuffer.read_value {T : Type} (b : HeapBuffer T) (index : Nat) :
    Option T × HeapBuffer T :=
  (b.data index, ⟨b.cap, fun j => if j = index then none else b.data j⟩)

/-- Model of `HeapBuffer::write_value` (`ptr::write`). -/
def HeapBuffer.write_value {T : Type} (b : HeapBuffer T) (index : Nat)
    (value : T) : HeapBuffer T :=
  ⟨b.cap, fun j => if j = index then some value else b.data j⟩

/-- Model of `HeapBuffer::manually_drop` (`ptr::drop_in_place`). -/
def HeapBuffer.manually_drop {T : Type} (b : HeapBuffer T) (index : Nat) :
    HeapBuffer T :=
  ⟨b.cap, fun j => if j = index then none else b.data j⟩

/-- Model of `CopyValueBuffer::copy_value` for `HeapBuffer` (`T: Copy`): reads
the slot without taking `&mut self`, so the slot is not emptied. -/
def HeapBuffer.copy_value {T : Type} (b : HeapBuffer T) (index : Nat) :
    Option T :=
  b.data index

/-- Model of `HeapBuffer::allocate_array` (fresh allocation of `target`
slots, contents uninitialized).  Allocation success is abstracted. -/
def HeapBuffer.allocate_array {T : Type} (_ : HeapBuffer T) (target : Nat) :
    Except ResizeError (HeapBuffer T) :=
  .ok ⟨target, fun _ => none⟩

/-- Model of `HeapBuffer::resize_array` (`realloc`): capacity becomes
`target`; contents below both the old and the new capacity are preserved,
anything else is garbage. -/
def HeapBuffer.resize_array {T : Type} (b : HeapBuffer T) (target : Nat) :
    Except ResizeError (HeapBuffer T) :=
  .ok ⟨target, fun j => if j < b.cap ∧ j < target then b.data j else none⟩

/-- Model of `HeapBuffer::deallocate_array`: back to the dangling state. -/
def HeapBuffer.deallocate_array {T : Type} (_ : HeapBuffer T) :
    Except ResizeError (HeapBuffer T) :=
  .ok ⟨0, fun _ => none⟩

/-- Model of `HeapBuffer::try_grow`: allocate when the capacity is zero,
reallocate otherwise. -/
def HeapBuffer.try_grow {T : Type} (b : HeapBuffer T) (target : Nat) :
    Except ResizeError (HeapBuffer T) :=
  if b.cap = 0 then b.allocate_array target else b.resize_array target

/-- Model of `HeapBuffer::try_shrink`: deallocate when the target is zero,
reallocate otherwise. -/
def HeapBuffer.try_shrink {T : Type} (b : HeapBuffer T) (target : Nat) :
    Except ResizeError (HeapBuffer T) :=
  if target = 0 then b.deallocate_array else b.resize_array target

/-- Operations of the core `Buffer` trait (`1_interface/1_buffer.rs`), as a
syntax of calls, used to state invariants over arbitrary call sequences. -/
inductive BufferOp (T : Type) where
  | read (index : Nat)
  | write (index : Nat) (value : T)
  | manuallyDrop (index : Nat)
  | tryGrow (target : Nat)
  | tryShrink (target : Nat)

/-- Applies one trait call to an `InlineBuffer` (a failed resize leaves the
state untouched, as in the source). -/
def InlineBuffer.applyOp {T : Type} {N : Nat} (b : InlineBuffer T N) :
    BufferOp T → InlineBuffer T N
  | .read i => (b.read_value i).2
  | .write i v => b.write_value i v
  | .manuallyDrop i => b.manually_drop i
  | .tryGrow t => match b.try_grow t with | .ok nb => nb | .error _ => b
  | .tryShrink t => match b.try_shrink t with | .ok nb => nb | .error _ => b

/-- Applies a sequence of trait calls to an `InlineBuffer`. -/
def InlineBuffer.applyOps {T : Type} {N : Nat} (b : InlineBuffer T N)
    (ops : List (BufferOp T)) : InlineBuffer T N :=
  ops.foldl InlineBuffer.applyOp b

/-- Zero-sized-type buffer, from `2_base_buffers/3_zst.rs`
(`struct ZstBuffer<T> { _m: PhantomData<T> }`).  It carries no data. -/
structure ZstBuffer (T : Type) where

/-- Model of `ZstBuffer::new` (`Default::default` forwards to it).  The source
opens with
`debug_assert_eq!(std::mem::size_of::<T>(), 0, "ZstBuffer only works with zero-sized types")`;
the panic of that assertion (active in the builds that run the tests) is
modelled as `Except.error` carrying the assertion message, parameterized by
`std::mem::size_of::<T>()`. -/
def ZstBuffer.new (T : Type) (sizeOfT : Nat) : Except String (ZstBuffer T) :=
  if sizeOfT = 0 then .ok ⟨⟩
  else .error "ZstBuffer only works with zero-sized types"

/-- Model of Rust `usize::next_power_of_two`: the smallest power of two
greater than or equal to `n` (with `next_power_of_two 0 = 1`), computed by
scanning exponents upward; `n` steps of fuel always suffice since
`n ≤ 2 ^ n`. -/
def next_power_of_two_aux : Nat → Nat → Nat → Nat
  | 0, _, _ => 1
  | fuel + 1, k, n => if n ≤ 2 ^ k then 2 ^ k else next_power_of_two_aux fuel (k + 1) n

/-- Rust `usize::next_power_of_two` (see `next_power_of_two_aux`). -/
def next_power_of_two (n : Nat) : Nat :=
  next_power_of_two_aux n 0 n

/-- The grow target that `ExponentGrowthBuffer::try_grow` passes to its inner
buffer, from `3_composites/3_exponential_growth.rs`:
`let new_target = (target - 1).next_power_of_two();`.
Rust `usize` subtraction `target - 1` is `Nat` subtraction here; the source
comment notes `target` is always positive, so no underflow occurs. -/
def ExponentGrowthBuffer.new_target (target : Nat) : Nat :=
  next_power_of_two (target - 1)

/-- The `ExponentGrowthBuffer<B>` composite instantiated with a
`HeapBuffer` inner buffer (tuple struct `ExponentGrowthBuffer<B: Buffer>(B)`). -/
structure ExponentGrowthHeap (T : Type) where
  inner : HeapBuffer T

/-- Capacity of the composite: forwarded to the inner buffer by the
`IndirectBuffer` blanket implementation. -/
def ExponentGrowthHeap.capacity {T : Type} (b : ExponentGrowthHeap T) : Nat :=
  b.inner.capacity

/-- Model of `ExponentGrowthBuffer::try_grow` over a heap inner buffer:
forwards `new_target` to the inner `try_grow`. -/
def ExponentGrowthHeap.try_grow {T : Type} (b : ExponentGrowthHeap T)
    (target : Nat) : Except ResizeError (ExponentGrowthHeap T) :=
  (b.inner.try_grow (ExponentGrowthBuffer.new_target target)).map ExponentGrowthHeap.mk

/-- Capacity observed after growing a fresh `ExponentGrowthBuffer<HeapBuffer>`
to `target` (`none` when the grow call fails). -/
def egb_heap_capacity_after (target : Nat) : Option Nat :=
  match ExponentGrowthHeap.try_grow ⟨HeapBuffer.new Nat⟩ target with
  | .ok b => some b.capacity
  | .error _ => none

/-- Grow-recording mock buffer, from `3_composites/c_grow_mock.rs`
(`struct GrowMockBuffer<B: Buffer> { buff: B, last_target: usize }`),
instantiated with an inline inner buffer, as the repository tests do. -/
structure GrowMockBuffer (T : Type) (N : Nat) where
  buff : InlineBuffer T N
  last_target : Nat

/-- Model of `GrowMockBuffer::default` (`from(Default::default())`,
`last_target: 0`). -/
def GrowMockBuffer.new (T : Type) (N : Nat) : GrowMockBuffer T N :=
  ⟨InlineBuffer.new T N, 0⟩

/-- Model of `GrowMockBuffer::try_grow`: records `target` in `last_target`
(even when the inner grow fails, since `self.last_target = target` runs
first), then forwards to the inner buffer. -/
def GrowMockBuffer.try_grow {T : Type} {N : Nat} (b : GrowMockBuffer T N)
    (target : Nat) : GrowMockBuffer T N × Except ResizeError Unit :=
  match b.buff.try_grow target with
  | .ok nb => (⟨nb, target⟩, .ok ())
  | .error e => (⟨b.buff, target⟩, .error e)

/-- Model of `ExponentGrowthBuffer::try_grow` over a `GrowMockBuffer` inner
buffer: the mock observes `new_target`. -/
def ExponentGrowthMock.try_grow {T : Type} {N : Nat} (b : GrowMockBuffer T N)
    (target : Nat) : GrowMockBuffer T N × Except ResizeError Unit :=
  b.try_grow (ExponentGrowthBuffer.new_target target)

/-- State observed after wrapping a fresh `GrowMockBuffer<InlineBuffer<u32, 1>>`
in `ExponentGrowthBuffer` and requesting growth to `target`, mirroring the
`test_properly_growing` test of `3_exponential_growth.rs`. -/
def egb_mock_after (target : Nat) : GrowMockBuffer Nat 1 × Except ResizeError Unit :=
  ExponentGrowthMock.try_grow (GrowMockBuffer.new Nat 1) target

/-- The `EitherBuffer<A, B>` sum (`3_composites/b_either.rs`) instantiated as
`SvoBuffer` uses it: `EitherBuffer<InlineBuffer<T, SMALL_SIZE>, B>` with a
heap big buffer. -/
inductive EitherBuffer (T : Type) (N : Nat) where
  | first (buf : InlineBuffer T N)
  | second (buf : HeapBuffer T)

/-- Small-vector-optimized buffer, from `3_composites/2_svo.rs`
(`struct SvoBuffer<const SMALL_SIZE: usize, B> { inner: EitherBuffer<..> }`),
with `B = HeapBuffer` as in the repository tests. -/
structure SvoBuffer (T : Type) (N : Nat) where
  inner : EitherBuffer T N

/-- Model of `SvoBuffer::new` / `Default`: starts in the `First` (inline)
variant. -/
def SvoBuffer.new (T : Type) (N : Nat) : SvoBuffer T N :=
  ⟨.first (InlineBuffer.new T N)⟩

/-- Model of `SvoBuffer::capacity`: forwarded to the active variant. -/
def SvoBuffer.capacity {T : Type} {N : Nat} (b : SvoBuffer T N) : Nat :=
  match b.inner with
  | .first buf => buf.capacity
  | .second buf => buf.capacity

/-- Model of `SvoBuffer::read_value`: forwarded to the active variant. -/
def SvoBuffer.read_value {T : Type} {N : Nat} (b : SvoBuffer T N)
    (index : Nat) : Option T × SvoBuffer T N :=
  match b.inner with
  | .first buf => ((buf.read_value index).1, ⟨.first (buf.read_value index).2⟩)
  | .second buf => ((buf.read_value index).1, ⟨.second (buf.read_value index).2⟩)

/-- Model of `SvoBuffer::write_value`: forwarded to the active variant. -/
def SvoBuffer.write_value {T : Type} {N : Nat} (b : SvoBuffer T N)
    (index : Nat) (value : T) : SvoBuffer T N :=
  match b.inner with
  | .first buf => ⟨.first (buf.write_value index value)⟩
  | .second buf => ⟨.second (buf.write_value index value)⟩

/-- Model of `SvoBuffer::manually_drop`: forwarded to the active variant. -/
def SvoBuffer.manually_drop {T : Type} {N : Nat} (b : SvoBuffer T N)
    (index : Nat) : SvoBuffer T N :=
  match b.inner with
  | .first buf => ⟨.first (buf.manually_drop index)⟩
  | .second buf => ⟨.second (buf.manually_drop index)⟩

/-- Model of `SvoBuffer::move_into_big`, taking the inline buffer destructured
by the source's `let EitherBuffer::First(ref current_buf) = self.inner`:
default-construct the big buffer, grow it to `target` if needed, bulk-copy
(`ptr::copy_nonoverlapping`) the `current_buf.capacity()` = `SMALL_SIZE`
inline slots into it, and switch to `Second`. -/
def SvoBuffer.move_into_big {T : Type} {N : Nat} (current_buf : InlineBuffer T N)
    (target : Nat) : Except ResizeError (SvoBuffer T N) :=
  let new_buf := HeapBuffer.new T
  match (if new_buf.capacity < target then new_buf.try_grow target else .ok new_buf) with
  | .error e => .error e
  | .ok grown =>
      .ok ⟨.second ⟨grown.cap, fun j => if j < N then current_buf.array j else grown.data j⟩⟩

/-- Model of `SvoBuffer::try_grow`: promote (via `move_into_big`) when still
inline, otherwise forward to the big buffer. -/
def SvoBuffer.try_grow {T : Type} {N : Nat} (b : SvoBuffer T N)
    (target : Nat) : Except ResizeError (SvoBuffer T N) :=
  match b.inner with
  | .first cur => SvoBuffer.move_into_big cur target
  | .second buf => (buf.try_grow target).map (fun nb => ⟨.second nb⟩)

/-- Model of `SvoBuffer::try_shrink`: a no-op success while inline, forwarded
to the big buffer after promotion. -/
def SvoBuffer.try_shrink {T : Type} {N : Nat} (b : SvoBuffer T N)
    (target : Nat) : Except ResizeError (SvoBuffer T N) :=
  match b.inner with
  | .first _ => .ok b
  | .second buf => (buf.try_shrink target).map (fun nb => ⟨.second nb⟩)

/-- Whether the `SvoBuffer` is in its promoted (`Second`, heap-backed)
state. -/
def SvoBuffer.isSecond {T : Type} {N : Nat} (b : SvoBuffer T N) : Bool :=
  match b.inner with
  | .first _ => false
  | .second _ => true

/-- Applies one trait call to an `SvoBuffer` (a failed resize leaves the
state untouched: the source's `?` returns before `self.inner` is written). -/
def SvoBuffer.applyOp {T : Type} {N : Nat} (b : SvoBuffer T N) :
    BufferOp T → SvoBuffer T N
  | .read i => (b.read_value i).2
  | .write i v => b.write_value i v
  | .manuallyDrop i => b.manually_drop i
  | .tryGrow t => match b.try_grow t with | .ok nb => nb | .error _ => b
  | .tryShrink t => match b.try_shrink t with | .ok nb => nb | .error _ => b

/-- Applies a sequence of trait calls to an `SvoBuffer`. -/
def SvoBuffer.applyOps {T : Type} {N : Nat} (b : SvoBuffer T N)
    (ops : List (BufferOp T)) : SvoBuffer T N :=
  ops.foldl SvoBuffer.applyOp b

/-- One end of a Rust `RangeBounds<usize>` value (`std::ops::Bound`). -/
inductive Bound where
  | included (index : Nat)
  | excluded (index : Nat)
  | unbounded

/-- A Rust `RangeBounds<usize>` value, by its two bounds.  The range
`start..stop` has an included start bound and an excluded end bound. -/
structure RangeB where
  start_bound : Bound
  end_bound : Bound

/-- Checked `usize` subtraction: Rust `end - start` panics (in the builds
that run the tests) when it would underflow, modelled as `none`. -/
def checked_sub (a b : Nat) : Option Nat :=
  if b ≤ a then some (a - b) else none

/-- Model of the `start_len` helper of
`1_interface/5_contiguous_memory.rs` (the range-clamping helper behind
`ContiguousMemoryBuffer::slice` and `mut_slice`), verbatim from the source:
`let size = if start <= end { 0 } else { end - start };`.
Returns the `(start, len)` pair used to build the slice from `ptr(start)`,
or `none` when the subtraction panics. -/
def start_len (capacity : Nat) (range : RangeB) : Option (Nat × Nat) :=
  let start : Nat :=
    match range.start_bound with
    | .included index => index
    | .excluded index => index + 1
    | .unbounded => 0
  let stop : Nat :=
    match range.end_bound with
    | .included index => index + 1
    | .excluded index => index
    | .unbounded => capacity
  if start ≤ stop then some (start, 0)
  else (checked_sub stop start).map (fun size => (start, size))

/-- One column of the array-of-buffers composite
(`3_composites/5_array.rs`), modelled as a mock inner buffer: its current
capacity, its programmable responses to `try_grow` and `try_shrink` (the new
capacity on success), and counters of how many resize calls actually reached
it. -/
structure MockColumnBuffer where
  cap : Nat
  growResp : Nat → Except ResizeError Nat
  shrinkResp : Nat → Except ResizeError Nat
  grow_calls : Nat
  shrink_calls : Nat

/-- One `try_grow` call reaching a column: its call counter increments and,
on success, its capacity becomes the responded value. -/
def MockColumnBuffer.try_grow (c : MockColumnBuffer) (target : Nat) :
    MockColumnBuffer × Except ResizeError Unit :=
  match c.growResp target with
  | .ok newCap => ({ c with cap := newCap, grow_calls := c.grow_calls + 1 }, .ok ())
  | .error e => ({ c with grow_calls := c.grow_calls + 1 }, .error e)

/-- One `try_shrink` call reaching a column. -/
def MockColumnBuffer.try_shrink (c : MockColumnBuffer) (target : Nat) :
    MockColumnBuffer × Except ResizeError Unit :=
  match c.shrinkResp target with
  | .ok newCap => ({ c with cap := newCap, shrink_calls := c.shrink_calls + 1 }, .ok ())
  | .error e => ({ c with shrink_calls := c.shrink_calls + 1 }, .error e)

/-- Model of `ArrayBuffer::try_grow`: for each column in order, call the
inner `try_grow` only when `buffer.capacity() < target`; `Ok` and
`Err(UnsupportedOperation)` continue the loop, any other error is returned
immediately (leaving the remaining columns untouched). -/
def ArrayBuffer.try_grow : List MockColumnBuffer → Nat →
    List MockColumnBuffer × Except ResizeError Unit
  | [], _ => ([], .ok ())
  | c :: rest, target =>
      if c.cap < target then
        match c.try_grow target with
        | (c1, .ok _) =>
            let (rest1, r) := ArrayBuffer.try_grow rest target
            (c1 :: rest1, r)
        | (c1, .error .unsupportedOperation) =>
            let (rest1, r) := ArrayBuffer.try_grow rest target
            (c1 :: rest1, r)
        | (c1, .error e) => (c1 :: rest, .error e)
      else
        let (rest1, r) := ArrayBuffer.try_grow rest target
        (c :: rest1, r)

/-- Model of `ArrayBuffer::try_shrink`: every column is shrunk (no capacity
guard); `Ok` and `Err(UnsupportedOperation)` continue, any other error is
returned immediately. -/
def ArrayBuffer.try_shrink : List MockColumnBuffer → Nat →
    List MockColumnBuffer × Except ResizeError Unit
  | [], _ => ([], .ok ())
  | c :: rest, target =>
      match c.try_shrink target with
      | (c1, .ok _) =>
          let (rest1, r) := ArrayBuffer.try_shrink rest target
          (c1 :: rest1, r)
      | (c1, .error .unsupportedOperation) =>
          let (rest1, r) := ArrayBuffer.try_shrink rest target
          (c1 :: rest1, r)
      | (c1, .error e) => (c1 :: rest, .error e)

/-- The error of a column response that the broadcast loop propagates: `Ok`
and `Err(UnsupportedOperation)` are tolerated (`none`), any other error is a
hard error. -/
def hardError (r : Except ResizeError Nat) : Option ResizeError :=
  match r with
  | .ok _ => none
  | .error .unsupportedOperation => none
  | .error e => some e

/-- Concrete column used by witnesses: capacity 5, resizes succeed. -/
def colOk : MockColumnBuffer :=
  ⟨5, fun t => .ok t, fun t => .ok t, 0, 0⟩

/-- Concrete column used by witnesses: capacity 0, growing always reports
out of memory. -/
def colOom : MockColumnBuffer :=
  ⟨0, fun _ => .error .outOfMemory, fun t => .ok t, 0, 0⟩

/-- Concrete inline buffer used by witnesses: one slot, holding 123 at
position 0 (mirroring `should_move_elements_when_growing`). -/
def svoSmall123 : InlineBuffer Nat 1 :=
  (InlineBuffer.new Nat 1).write_value 0 123

/-- Concrete promoted small-vector buffer used by witnesses. -/
def svoPromoted : SvoBuffer Nat 1 :=
  ⟨.second ⟨4, fun _ => none⟩⟩

/-- C1: writing a value into an empty in-bounds slot and immediately reading
that slot returns the written value and leaves the slot empty (legal to
write again, capacity unchanged), for the inline and heap base buffers; for
the heap buffer's `Copy` access, `copy_value` after the write returns the
value without emptying the slot. -/
theorem write_read_round_trip {T : Type} {N : Nat}
    (b : InlineBuffer T N) (hb : HeapBuffer T) (i j : Nat) (v w : T)
    (hiN : i < N) (hi_empty : b.array i = none)
    (hj : j < hb.capacity) (hj_empty : hb.data j = none) :
    ((b.write_value i v).read_value i).1 = some v ∧
    ((b.write_value i v).read_value i).2.array i = none ∧
    ((b.write_value i v).read_value i).2.capacity = N ∧
    ((hb.write_value j w).read_value j).1 = some w ∧
    ((hb.write_value j w).read_value j).2.data j = none ∧
    ((hb.write_value j w).read_value j).2.capacity = hb.capacity ∧
    (hb.write_value j w).copy_value j = some w ∧
    (hb.write_value j w).data j = some w := by
  simp [InlineBuffer.write_value, InlineBuffer.read_value, InlineBuffer.capacity,
    HeapBuffer.write_value, HeapBuffer.read_value, HeapBuffer.capacity,
    HeapBuffer.copy_value]

/-- Witness for C1 at concrete inputs: a 3-slot inline buffer at index 0 with
value 7, and a 2-slot heap buffer at index 1 with value 9. -/
theorem write_read_round_trip_witness :
    ((((InlineBuffer.new Nat 3).write_value 0 7).read_value 0).1 = some 7) ∧
    ((((HeapBuffer.mk 2 fun _ => none).write_value 1 9).read_value 1).1 = some 9) :=
  ⟨(write_read_round_trip (InlineBuffer.new Nat 3) (HeapBuffer.mk 2 fun _ => none)
      0 1 7 9 (by decide) rfl (by decide) rfl).1,
   (write_read_round_trip (InlineBuffer.new Nat 3) (HeapBuffer.mk 2 fun _ => none)
      0 1 7 9 (by decide) rfl (by decide) rfl).2.2.2.1⟩

/-- C7: an `InlineBuffer` of compile-time size `N` reports capacity `N` after
any sequence of trait calls, and `try_grow` and `try_shrink` always fail with
the unsupported-operation resize error. -/
theorem inline_buffer_capacity_invariant {T : Type} {N : Nat}
    (b : InlineBuffer T N) (ops : List (BufferOp T)) (target : Nat) :
    (InlineBuffer.applyOps b ops).capacity = N ∧
    b.try_grow target = .error .unsupportedOperation ∧
    b.try_shrink target = .error .unsupportedOperation :=
  ⟨rfl, rfl, rfl⟩

/-- C9: `ZstBuffer::new` (also reached through `Default` and the `ZstoBuffer`
conditional composite) succeeds exactly when the element type is zero-sized:
its size-check assertion rejects every type of non-zero size. -/
theorem zst_new_rejects_nonzero_size (T : Type) (sizeOfT : Nat) :
    (∃ b, ZstBuffer.new T sizeOfT = .ok b) ↔ sizeOfT = 0 := by
  constructor
  · intro h
    by_contra hne
    obtain ⟨b, hb⟩ := h
    simp [ZstBuffer.new, hne] at hb
  · intro h
    exact ⟨⟨⟩, by simp [ZstBuffer.new, h]⟩

/-- Witness for C9: construction succeeds at size 0 and fails at size 1
(for example Rust `bool`). -/
theorem zst_new_rejects_nonzero_size_witness :
    (∃ b, ZstBuffer.new Unit 0 = .ok b) ∧
    ¬(∃ b, ZstBuffer.new Bool 1 = .ok b) :=
  ⟨(zst_new_rejects_nonzero_size Unit 0).mpr rfl,
   fun h => absurd ((zst_new_rejects_nonzero_size Bool 1).mp h) (by decide)⟩

/-- C4 (code bug): the `start_len` range-clamping helper behind
`slice`/`mut_slice` has its comparison inverted.  For the well-formed range
`0..2` it reports slice length 0, where the claim (and the spec's stated
intent) requires length `end - start = 2`. -/
theorem start_len_inverted_comparison_bug :
    start_len 4 ⟨.included 0, .excluded 2⟩ = some (0, 0) ∧ (2 : Nat) ≠ 0 := by
  decide

/-- C2 (code bug): growing a fresh `ExponentGrowthBuffer<HeapBuffer>` to
target 2 (the grow precondition `2 > capacity() = 0` holds) succeeds but
leaves capacity `(2 - 1).next_power_of_two() = 1 < 2`, violating the claimed
postcondition `capacity() >= target`. -/
theorem exponential_growth_breaks_grow_postcondition :
    (ExponentGrowthHeap.mk (HeapBuffer.new Nat)).capacity < 2 ∧
    egb_heap_capacity_after 2 = some 1 ∧
    ¬(2 ≤ 1) :=
  ⟨by decide, rfl, by decide⟩

/-- C3 (code bug): the exponential-growth composite forwards
`(target - 1).next_power_of_two()` to its inner buffer.  At target 10 the
mock observes 16 as the claim states, but at target 2 it observes 1, which is
not a power of two greater than or equal to the requested target. -/
theorem exponential_growth_target_rounding_bug :
    (egb_mock_after 10).1.last_target = 16 ∧
    (egb_mock_after 2).1.last_target = 1 ∧
    ¬(2 ≤ 1) :=
  ⟨rfl, rfl, by decide⟩

/-- C5: an inline (`First`) small-vector buffer holding `v` at slot 0, grown
to a target beyond the inline capacity, succeeds, switches to the promoted
(`Second`) state with a big buffer of capacity at least `target`, and a
subsequent `read_value(0)` still returns `v`. -/
theorem svo_grow_preserves_data {T : Type} {N : Nat}
    (buf : InlineBuffer T N) (v : T) (target : Nat)
    (h0 : buf.array 0 = some v) (hN : 0 < N) (ht : N < target) :
    ∃ b2, SvoBuffer.try_grow (⟨.first buf⟩ : SvoBuffer T N) target = .ok b2 ∧
      b2.isSecond = true ∧ target ≤ b2.capacity ∧ (b2.read_value 0).1 = some v := by
  have h0t : 0 < target := lt_of_le_of_lt (Nat.zero_le N) ht
  refine ⟨⟨.second ⟨target, fun j => if j < N then buf.array j else none⟩⟩, ?_, rfl, ?_, ?_⟩
  · simp [SvoBuffer.try_grow, SvoBuffer.move_into_big, HeapBuffer.new,
      HeapBuffer.capacity, HeapBuffer.try_grow, HeapBuffer.allocate_array, h0t]
  · simp [SvoBuffer.capacity, HeapBuffer.capacity]
  · simp [SvoBuffer.read_value, HeapBuffer.read_value, hN, h0]

/-- Witness for C5: one inline slot holding 123, grown to 32, mirroring the
`should_move_elements_when_growing` test. -/
theorem svo_grow_preserves_data_witness :
    ∃ b2, SvoBuffer.try_grow (⟨.first svoSmall123⟩ : SvoBuffer Nat 1) 32 = .ok b2 ∧
      b2.isSecond = true ∧ 32 ≤ b2.capacity ∧ (b2.read_value 0).1 = some 123 :=
  svo_grow_preserves_data svoSmall123 123 32 rfl (by decide) (by decide)

/-- Every single trait call preserves the promoted (`Second`) state of an
`SvoBuffer`. -/
theorem svo_applyOp_preserves_second {T : Type} {N : Nat} (b : SvoBuffer T N)
    (op : BufferOp T) (h : b.isSecond = true) : (b.applyOp op).isSecond = true := by
  obtain ⟨inner⟩ := b
  cases inner with
  | first buf => simp [SvoBuffer.isSecond] at h
  | second buf =>
    cases op with
    | read i => rfl
    | write i v => rfl
    | manuallyDrop i => rfl
    | tryGrow t =>
      by_cases hc : buf.cap = 0 <;>
        simp [SvoBuffer.applyOp, SvoBuffer.try_grow, HeapBuffer.try_grow,
          HeapBuffer.allocate_array, HeapBuffer.resize_array, Except.map, hc,
          SvoBuffer.isSecond]
    | tryShrink t =>
      by_cases hc : t = 0 <;>
        simp [SvoBuffer.applyOp, SvoBuffer.try_shrink, HeapBuffer.try_shrink,
          HeapBuffer.deallocate_array, HeapBuffer.resize_array, Except.map, hc,
          SvoBuffer.isSecond]

/-- C6: promotion of the small-vector buffer is one-way — once the inner
`EitherBuffer` is in its `Second` (heap-backed) variant, it remains in the
`Second` variant after any sequence of trait calls. -/
theorem svo_promotion_monotone {T : Type} {N : Nat} (b : SvoBuffer T N)
    (ops : List (BufferOp T)) (h : b.isSecond = true) :
    (SvoBuffer.applyOps b ops).isSecond = true := by
  induction ops generalizing b with
  | nil => exact h
  | cons op rest ih =>
    simp only [SvoBuffer.applyOps, List.foldl_cons] at *
    exact ih _ (svo_applyOp_preserves_second b op h)

/-- Witness for C6: a concrete promoted buffer stays promoted through a
write, a grow, a shrink and a read. -/
theorem svo_promotion_monotone_witness :
    (SvoBuffer.applyOps svoPromoted
      [BufferOp.write 0 5, .tryGrow 9, .tryShrink 2, .read 0]).isSecond = true :=
  svo_promotion_monotone svoPromoted
    [BufferOp.write 0 5, .tryGrow 9, .tryShrink 2, .read 0] rfl

/-- Unfolding lemma: broadcasting grow over no columns succeeds. -/
theorem try_grow_nil (target : Nat) : ArrayBuffer.try_grow [] target = ([], .ok ()) :=
  rfl

/-- Unfolding lemma: a column whose capacity already reaches the target is
skipped untouched. -/
theorem try_grow_cons_skip (c : MockColumnBuffer) (rest : List MockColumnBuffer)
    (target : Nat) (h : ¬ c.cap < target) :
    ArrayBuffer.try_grow (c :: rest) target =
      (c :: (ArrayBuffer.try_grow rest target).1, (ArrayBuffer.try_grow rest target).2) := by
  simp only [ArrayBuffer.try_grow, if_neg h]

/-- Unfolding lemma: a column that grows successfully updates in place and the
loop continues. -/
theorem try_grow_cons_ok (c : MockColumnBuffer) (rest : List MockColumnBuffer)
    (target n : Nat) (h : c.cap < target) (hg : c.growResp target = .ok n) :
    ArrayBuffer.try_grow (c :: rest) target =
      ({ c with cap := n, grow_calls := c.grow_calls + 1 } :: (ArrayBuffer.try_grow rest target).1,
        (ArrayBuffer.try_grow rest target).2) := by
  simp only [ArrayBuffer.try_grow, if_pos h, MockColumnBuffer.try_grow, hg]

/-- Unfolding lemma: an unsupported-operation error from a column is ignored
and the loop continues. -/
theorem try_grow_cons_unsupported (c : MockColumnBuffer) (rest : List MockColumnBuffer)
    (target : Nat) (h : c.cap < target)
    (hg : c.growResp target = .error .unsupportedOperation) :
    ArrayBuffer.try_grow (c :: rest) target =
      ({ c with grow_calls := c.grow_calls + 1 } :: (ArrayBuffer.try_grow rest target).1,
        (ArrayBuffer.try_grow rest target).2) := by
  simp only [ArrayBuffer.try_grow, if_pos h, MockColumnBuffer.try_grow, hg]

/-- Unfolding lemma: any other error from a column is returned immediately,
leaving the remaining columns untouched. -/
theorem try_grow_cons_hard (c : MockColumnBuffer) (rest : List MockColumnBuffer)
    (target : Nat) (e : ResizeError) (h : c.cap < target)
    (hg : c.growResp target = .error e) (he : e ≠ .unsupportedOperation) :
    ArrayBuffer.try_grow (c :: rest) target =
      ({ c with grow_calls := c.grow_calls + 1 } :: rest, .error e) := by
  cases e with
  | outOfMemory => simp only [ArrayBuffer.try_grow, if_pos h, MockColumnBuffer.try_grow, hg]
  | theoreticalLimitSurpassed =>
      simp only [ArrayBuffer.try_grow, if_pos h, MockColumnBuffer.try_grow, hg]
  | unsupportedOperation => exact absurd rfl he
  | undistinguishableError =>
      simp only [ArrayBuffer.try_grow, if_pos h, MockColumnBuffer.try_grow, hg]

/-- Unfolding lemma: broadcasting shrink over no columns succeeds. -/
theorem try_shrink_nil (target : Nat) : ArrayBuffer.try_shrink [] target = ([], .ok ()) :=
  rfl

/-- Unfolding lemma: a column that shrinks successfully updates in place and
the loop continues. -/
theorem try_shrink_cons_ok (c : MockColumnBuffer) (rest : List MockColumnBuffer)
    (target n : Nat) (hg : c.shrinkResp target = .ok n) :
    ArrayBuffer.try_shrink (c :: rest) target =
      ({ c with cap := n, shrink_calls := c.shrink_calls + 1 } ::
          (ArrayBuffer.try_shrink rest target).1,
        (ArrayBuffer.try_shrink rest target).2) := by
  simp only [ArrayBuffer.try_shrink, MockColumnBuffer.try_shrink, hg]

/-- Unfolding lemma: an unsupported-operation error while shrinking a column
is ignored and the loop continues. -/
theorem try_shrink_cons_unsupported (c : MockColumnBuffer) (rest : List MockColumnBuffer)
    (target : Nat) (hg : c.shrinkResp target = .error .unsupportedOperation) :
    ArrayBuffer.try_shrink (c :: rest) target =
      ({ c with shrink_calls := c.shrink_calls + 1 } :: (ArrayBuffer.try_shrink rest target).1,
        (ArrayBuffer.try_shrink rest target).2) := by
  simp only [ArrayBuffer.try_shrink, MockColumnBuffer.try_shrink, hg]

/-- Unfolding lemma: any other error while shrinking is returned
immediately. -/
theorem try_shrink_cons_hard (c : MockColumnBuffer) (rest : List MockColumnBuffer)
    (target : Nat) (e : ResizeError) (hg : c.shrinkResp target = .error e)
    (he : e ≠ .unsupportedOperation) :
    ArrayBuffer.try_shrink (c :: rest) target =
      ({ c with shrink_calls := c.shrink_calls + 1 } :: rest, .error e) := by
  cases e with
  | outOfMemory => simp only [ArrayBuffer.try_shrink, MockColumnBuffer.try_shrink, hg]
  | theoreticalLimitSurpassed =>
      simp only [ArrayBuffer.try_shrink, MockColumnBuffer.try_shrink, hg]
  | unsupportedOperation => exact absurd rfl he
  | undistinguishableError =>
      simp only [ArrayBuffer.try_shrink, MockColumnBuffer.try_shrink, hg]

/-- The grow broadcast succeeds exactly when no consulted column reports a
hard (non-unsupported) error. -/
theorem array_grow_ok_iff (cols : List MockColumnBuffer) (target : Nat) :
    (ArrayBuffer.try_grow cols target).2 = .ok () ↔
      ∀ c ∈ cols, c.cap < target → hardError (c.growResp target) = none := by
  induction cols with
  | nil => simp [try_grow_nil]
  | cons c rest ih =>
    by_cases hc : c.cap < target
    · rcases hg : c.growResp target with e | n
      · cases e with
        | unsupportedOperation =>
          rw [try_grow_cons_unsupported c rest target hc hg]
          simpa [List.forall_mem_cons, hardError, hg, hc] using ih
        | outOfMemory =>
          rw [try_grow_cons_hard c rest target .outOfMemory hc hg (by decide)]
          simp [List.forall_mem_cons, hardError, hg, hc]
        | theoreticalLimitSurpassed =>
          rw [try_grow_cons_hard c rest target .theoreticalLimitSurpassed hc hg (by decide)]
          simp [List.forall_mem_cons, hardError, hg, hc]
        | undistinguishableError =>
          rw [try_grow_cons_hard c rest target .undistinguishableError hc hg (by decide)]
          simp [List.forall_mem_cons, hardError, hg, hc]
      · rw [try_grow_cons_ok c rest target n hc hg]
        simpa [List.forall_mem_cons, hardError, hg, hc] using ih
    · rw [try_grow_cons_skip c rest target hc]
      simpa [List.forall_mem_cons, hc] using ih

/-- When the grow broadcast returns an error, it is never the
unsupported-operation kind, and it is the error reported by some consulted
column. -/
theorem array_grow_error_hard (cols : List MockColumnBuffer) (target : Nat)
    (e : ResizeError) (h : (ArrayBuffer.try_grow cols target).2 = .error e) :
    e ≠ .unsupportedOperation ∧
      ∃ c ∈ cols, c.cap < target ∧ c.growResp target = .error e := by
  induction cols with
  | nil => simp [try_grow_nil] at h
  | cons c rest ih =>
    by_cases hc : c.cap < target
    · rcases hg : c.growResp target with e' | n
      · cases e' with
        | unsupportedOperation =>
          rw [try_grow_cons_unsupported c rest target hc hg] at h
          obtain ⟨hne, c', hmem, hlt, hresp⟩ := ih h
          exact ⟨hne, c', List.mem_cons_of_mem c hmem, hlt, hresp⟩
        | outOfMemory =>
          rw [try_grow_cons_hard c rest target .outOfMemory hc hg (by decide)] at h
          simp only [Except.error.injEq] at h
          subst h
          exact ⟨by decide, c, List.mem_cons_self c rest, hc, hg⟩
        | theoreticalLimitSurpassed =>
          rw [try_grow_cons_hard c rest target .theoreticalLimitSurpassed hc hg (by decide)] at h
          simp only [Except.error.injEq] at h
          subst h
          exact ⟨by decide, c, List.mem_cons_self c rest, hc, hg⟩
        | undistinguishableError =>
          rw [try_grow_cons_hard c rest target .undistinguishableError hc hg (by decide)] at h
          simp only [Except.error.injEq] at h
          subst h
          exact ⟨by decide, c, List.mem_cons_self c rest, hc, hg⟩
      · rw [try_grow_cons_ok c rest target n hc hg] at h
        obtain ⟨hne, c', hmem, hlt, hresp⟩ := ih h
        exact ⟨hne, c', List.mem_cons_of_mem c hmem, hlt, hresp⟩
    · rw [try_grow_cons_skip c rest target hc] at h
      obtain ⟨hne, c', hmem, hlt, hresp⟩ := ih h
      exact ⟨hne, c', List.mem_cons_of_mem c hmem, hlt, hresp⟩

/-- The shrink broadcast succeeds exactly when no column reports a hard
(non-unsupported) error. -/
theorem array_shrink_ok_iff (cols : List MockColumnBuffer) (target : Nat) :
    (ArrayBuffer.try_shrink cols target).2 = .ok () ↔
      ∀ c ∈ cols, hardError (c.shrinkResp target) = none := by
  induction cols with
  | nil => simp [try_shrink_nil]
  | cons c rest ih =>
    rcases hg : c.shrinkResp target with e | n
    · cases e with
      | unsupportedOperation =>
        rw [try_shrink_cons_unsupported c rest target hg]
        simpa [List.forall_mem_cons, hardError, hg] using ih
      | outOfMemory =>
        rw [try_shrink_cons_hard c rest target .outOfMemory hg (by decide)]
        simp [List.forall_mem_cons, hardError, hg]
      | theoreticalLimitSurpassed =>
        rw [try_shrink_cons_hard c rest target .theoreticalLimitSurpassed hg (by decide)]
        simp [List.forall_mem_cons, hardError, hg]
      | undistinguishableError =>
        rw [try_shrink_cons_hard c rest target .undistinguishableError hg (by decide)]
        simp [List.forall_mem_cons, hardError, hg]
    · rw [try_shrink_cons_ok c rest target n hg]
      simpa [List.forall_mem_cons, hardError, hg] using ih

/-- When the shrink broadcast returns an error, it is never the
unsupported-operation kind, and it is the error reported by some column. -/
theorem array_shrink_error_hard (cols : List MockColumnBuffer) (target : Nat)
    (e : ResizeError) (h : (ArrayBuffer.try_shrink cols target).2 = .error e) :
    e ≠ .unsupportedOperation ∧ ∃ c ∈ cols, c.shrinkResp target = .error e := by
  induction cols with
  | nil => simp [try_shrink_nil] at h
  | cons c rest ih =>
    rcases hg : c.shrinkResp target with e' | n
    · cases e' with
      | unsupportedOperation =>
        rw [try_shrink_cons_unsupported c rest target hg] at h
        obtain ⟨hne, c', hmem, hresp⟩ := ih h
        exact ⟨hne, c', List.mem_cons_of_mem c hmem, hresp⟩
      | outOfMemory =>
        rw [try_shrink_cons_hard c rest target .outOfMemory hg (by decide)] at h
        simp only [Except.error.injEq] at h
        subst h
        exact ⟨by decide, c, List.mem_cons_self c rest, hg⟩
      | theoreticalLimitSurpassed =>
        rw [try_shrink_cons_hard c rest target .theoreticalLimitSurpassed hg (by decide)] at h
        simp only [Except.error.injEq] at h
        subst h
        exact ⟨by decide, c, List.mem_cons_self c rest, hg⟩
      | undistinguishableError =>
        rw [try_shrink_cons_hard c rest target .undistinguishableError hg (by decide)] at h
        simp only [Except.error.injEq] at h
        subst h
        exact ⟨by decide, c, List.mem_cons_self c rest, hg⟩
    · rw [try_shrink_cons_ok c rest target n hg] at h
      obtain ⟨hne, c', hmem, hresp⟩ := ih h
      exact ⟨hne, c', List.mem_cons_of_mem c hmem, hresp⟩

/-- C8: the array-of-buffers composite broadcasts `try_grow`/`try_shrink`
across its columns, ignores unsupported-operation errors (the loop
continues), returns any other resize error immediately to the caller, and
succeeds when no column reports such an error. -/
theorem array_buffer_resize_error_policy (cols : List MockColumnBuffer) (target : Nat) :
    ((ArrayBuffer.try_grow cols target).2 = .ok () ↔
       ∀ c ∈ cols, c.cap < target → hardError (c.growResp target) = none) ∧
    (∀ e, (ArrayBuffer.try_grow cols target).2 = .error e →
       e ≠ .unsupportedOperation ∧
         ∃ c ∈ cols, c.cap < target ∧ c.growResp target = .error e) ∧
    ((ArrayBuffer.try_shrink cols target).2 = .ok () ↔
       ∀ c ∈ cols, hardError (c.shrinkResp target) = none) ∧
    (∀ e, (ArrayBuffer.try_shrink cols target).2 = .error e →
       e ≠ .unsupportedOperation ∧ ∃ c ∈ cols, c.shrinkResp target = .error e) :=
  ⟨array_grow_ok_iff cols target,
   fun e h => array_grow_error_hard cols target e h,
   array_shrink_ok_iff cols target,
   fun e h => array_shrink_error_hard cols target e h⟩

/-- Witness for C8: a single column with an out-of-memory grow response makes
the broadcast report out of memory, a hard error reported by that column. -/
theorem array_buffer_resize_error_policy_witness :
    ResizeError.outOfMemory ≠ ResizeError.unsupportedOperation ∧
    ∃ c ∈ [colOom], c.cap < 5 ∧ c.growResp 5 = .error .outOfMemory :=
  (array_buffer_resize_error_policy [colOom] 5).2.1 .outOfMemory rfl

/-- C10: during the grow broadcast, a column whose capacity already reaches
the target is never invoked and is left completely unchanged (same record,
including its call counter). -/
theorem array_buffer_grow_skips_big_columns (cols : List MockColumnBuffer)
    (target i : Nat) (c : MockColumnBuffer)
    (hi : cols[i]? = some c) (hcap : target ≤ c.cap) :
    (ArrayBuffer.try_grow cols target).1[i]? = some c := by
  induction cols generalizing i with
  | nil => simp at hi
  | cons c0 rest ih =>
    by_cases hc : c0.cap < target
    · rcases hg : c0.growResp target with e | n
      · cases e with
        | unsupportedOperation =>
          rw [try_grow_cons_unsupported c0 rest target hc hg]
          cases i with
          | zero =>
            simp only [List.getElem?_cons_zero, Option.some.injEq] at hi
            subst hi
            exact absurd hcap (not_le.mpr hc)
          | succ j =>
            simp only [List.getElem?_cons_succ] at hi ⊢
            exact ih j hi
        | outOfMemory =>
          rw [try_grow_cons_hard c0 rest target .outOfMemory hc hg (by decide)]
          cases i with
          | zero =>
            simp only [List.getElem?_cons_zero, Option.some.injEq] at hi
            subst hi
            exact absurd hcap (not_le.mpr hc)
          | succ j =>
            simp only [List.getElem?_cons_succ] at hi ⊢
            exact hi
        | theoreticalLimitSurpassed =>
          rw [try_grow_cons_hard c0 rest target .theoreticalLimitSurpassed hc hg (by decide)]
          cases i with
          | zero =>
            simp only [List.getElem?_cons_zero, Option.some.injEq] at hi
            subst hi
            exact absurd hcap (not_le.mpr hc)
          | succ j =>
            simp only [List.getElem?_cons_succ] at hi ⊢
            exact hi
        | undistinguishableError =>
          rw [try_grow_cons_hard c0 rest target .undistinguishableError hc hg (by decide)]
          cases i with
          | zero =>
            simp only [List.getElem?_cons_zero, Option.some.injEq] at hi
            subst hi
            exact absurd hcap (not_le.mpr hc)
          | succ j =>
            simp only [List.getElem?_cons_succ] at hi ⊢
            exact hi
      · rw [try_grow_cons_ok c0 rest target n hc hg]
        cases i with
        | zero =>
          simp only [List.getElem?_cons_zero, Option.some.injEq] at hi
          subst hi
          exact absurd hcap (not_le.mpr hc)
        | succ j =>
          simp only [List.getElem?_cons_succ] at hi ⊢
          exact ih j hi
    · rw [try_grow_cons_skip c0 rest target hc]
      cases i with
      | zero =>
        simp only [List.getElem?_cons_zero] at hi ⊢
        exact hi
      | succ j =>
        simp only [List.getElem?_cons_succ] at hi ⊢
        exact ih j hi

/-- Witness for C10: a column of capacity 5 survives a grow broadcast with
target 3 unchanged. -/
theorem array_buffer_grow_skips_big_columns_witness :
    3 ≤ colOk.cap ∧ (ArrayBuffer.try_grow [colOk] 3).1[0]? = some colOk :=
  ⟨by decide, array_buffer_grow_skips_big_columns [colOk] 3 0 colOk rfl (by decide)⟩

end Buffers


